import Mathlib

/-!
Verification of the `samsung-setup` debloat script (`src/adb.py`, `src/main.py`).

The Python code is shallowly embedded: each function becomes a Lean
definition over an explicit event trace (adb commands issued, prompts on
standard input, console prints).  The external `adb` binary, standard
input, and the XML library are modelled by a `Device` environment; Python
exceptions are modelled with `Except`.
-/

set_option maxRecDepth 4000

namespace Samsung

/-! ### Character / string helpers mirroring the Python string methods -/

/-- Python `str.replace("][", ",")`, the specialisation used on bounds
strings: left-to-right, non-overlapping replacement of the two-character
pattern `][` by a comma (src/adb.py line 287). -/
def replaceSep : List Char → List Char
  | [] => []
  | [c] => [c]
  | c1 :: c2 :: rest =>
    if c1 = ']' ∧ c2 = '[' then ',' :: replaceSep rest
    else c1 :: replaceSep (c2 :: rest)

/-- Python `str.strip(chars)`: drop the characters of `cs` from both ends. -/
def pyStrip (cs : List Char) (l : List Char) : List Char :=
  ((l.dropWhile (cs.contains ·)).reverse.dropWhile (cs.contains ·)).reverse

/-- Python `str.split(sep)` for a one-character separator: split at every
occurrence, keeping empty chunks, `n` separators giving `n+1` chunks. -/
def splitOnChar (sep : Char) : List Char → List (List Char)
  | [] => [[]]
  | c :: rest =>
    let r := splitOnChar sep rest
    if c = sep then [] :: r
    else (c :: r.headD []) :: r.tail

/-- Value of a digit string, accumulator style; `none` on a non-digit. -/
def digitsVal : List Char → Nat → Option Nat
  | [], acc => some acc
  | c :: rest, acc =>
    if c.isDigit then digitsVal rest (10 * acc + (c.toNat - 48)) else none

/-- Nonempty all-digit string to its value. -/
def digits? (l : List Char) : Option Nat :=
  if l.isEmpty then none else digitsVal l 0

/-- Python `int(s)` on the fragment relevant here: an optional sign
followed by one or more ASCII digits; `none` models `ValueError`. -/
def pyInt? (l : List Char) : Option Int :=
  match l with
  | [] => none
  | c :: rest =>
    if c = '-' then (digits? rest).map (fun n => -(Int.ofNat n))
    else if c = '+' then (digits? rest).map (fun n => Int.ofNat n)
    else (digits? (c :: rest)).map (fun n => Int.ofNat n)

/-- Contiguous-sublist test: does `needle` occur somewhere in the list? -/
def isSubOf (needle : List Char) : List Char → Bool
  | [] => needle.isEmpty
  | c :: rest => needle.isPrefixOf (c :: rest) || isSubOf needle rest

/-- Python `needle in hay` on strings: substring membership. -/
def pyIn (needle hay : String) : Bool :=
  isSubOf needle.data hay.data

/-- Python `str.splitlines()` restricted to `\n` separators: a trailing
newline does not produce a final empty line. -/
def splitlinesAux : List Char → List Char → List (List Char)
  | cur, [] => if cur.isEmpty then [] else [cur.reverse]
  | cur, c :: rest =>
    if c = '\n' then cur.reverse :: splitlinesAux [] rest
    else splitlinesAux (c :: cur) rest

def splitlines (s : String) : List String :=
  (splitlinesAux [] s.data).map (fun l => String.mk l)

/-- Python `str.replace(pat, rep)` in general (left-to-right,
non-overlapping), via structural fuel; used for `"package:"` removal in
`extract` (src/adb.py line 55). -/
def replaceAllFuel (pat rep : List Char) : Nat → List Char → List Char
  | _, [] => []
  | 0, l => l
  | fuel + 1, c :: rest =>
    if pat ≠ [] ∧ pat.isPrefixOf (c :: rest) then
      rep ++ replaceAllFuel pat rep fuel (rest.drop (pat.length - 1))
    else c :: replaceAllFuel pat rep fuel rest

def replaceAll (pat rep l : List Char) : List Char :=
  replaceAllFuel pat rep l.length l

/-! ### Bounds parsing and centre computation (src/adb.py lines 285-291) -/

/-- `install_button.attrib.get("bounds").replace("][", ",").strip("[]").split(",")`
followed by `map(int, ...)` unpacked into four variables; `none` models
the `ValueError` raised on a bad integer or a wrong number of parts. -/
def pyParseBounds (l : List Char) : Option (Int × Int × Int × Int) :=
  match splitOnChar ',' (pyStrip ['[', ']'] (replaceSep l)) with
  | [s1, s2, s3, s4] =>
    match pyInt? s1, pyInt? s2, pyInt? s3, pyInt? s4 with
    | some a, some b, some c, some d => some (a, b, c, d)
    | _, _, _, _ => none
  | _ => none

/-- The parsed bounds followed by `x = (x1 + x2) // 2; y = (y1 + y2) // 2`
(Python `//` is floor division, hence `Int.fdiv`). -/
def boundsCenter (l : List Char) : Option (Int × Int) :=
  (pyParseBounds l).map (fun q => ((q.1 + q.2.2.1).fdiv 2, (q.2.1 + q.2.2.2).fdiv 2))

/-! ### The XML element tree (the result of `ElementTree.fromstring`) -/

structure XAttr where
  key : String
  val : String
deriving DecidableEq

inductive XElem where
  | mk (tag : String) (attrib : List XAttr) (children : List XElem)

def XElem.tag : XElem → String
  | .mk t _ _ => t

def XElem.attrib : XElem → List XAttr
  | .mk _ a _ => a

def XElem.children : XElem → List XElem
  | .mk _ _ c => c

/-- Python `element.attrib.get(k)`: attribute lookup, `None` when absent. -/
def getAttr (e : XElem) (k : String) : Option String :=
  (e.attrib.find? (fun p => p.key == k)).map (fun p => p.val)

mutual
/-- All proper descendants of an element in document (preorder) order. -/
def descendants : XElem → List XElem
  | .mk _ _ children => descendantsList children

def descendantsList : List XElem → List XElem
  | [] => []
  | e :: rest => e :: (descendants e ++ descendantsList rest)
end

/-- `root.findall(".//node")`: every descendant tagged `node`, in document
order (src/adb.py line 277). -/
def findallNodes (root : XElem) : List XElem :=
  (descendants root).filter (fun e => e.tag == "node")

/-- The generator predicate `node.attrib.get("text") == "Install"`. -/
def isInstall (e : XElem) : Bool :=
  getAttr e ("text") == some ("Install")

/-- `next((node for node in nodes if ...), None)` (src/adb.py lines 278-280). -/
def firstInstall (root : XElem) : Option XElem :=
  (findallNodes root).find? isInstall

/-- All matching nodes in document order (the stream the `next` draws from). -/
def installMatches (root : XElem) : List XElem :=
  (findallNodes root).filter isInstall

/-! ### The effect monad: an event trace plus Python exceptions -/

abbrev Cmd := List String

inductive Event where
  | cmd (c : Cmd)
  | prompt (msg : String)
  | println (msg : String)
deriving DecidableEq

inductive PyErr where
  | cpe (c : Cmd)
  | parseError
  | attrError
  | valueError
  | typeError
deriving DecidableEq

abbrev Tr := List Event

def Eff (α : Type) : Type := Tr → Tr × Except PyErr α

def Eff.pure (a : α) : Eff α := fun t => (t, .ok a)

def Eff.bind (x : Eff α) (f : α → Eff β) : Eff β := fun t =>
  match x t with
  | (t1, .ok a) => f a t1
  | (t1, .error e) => (t1, .error e)

instance : Monad Eff where
  pure := Eff.pure
  bind := Eff.bind

def Eff.throw (e : PyErr) : Eff α := fun t => (t, .error e)

/-- The external world: whether each adb command exits 0, its stdout,
standard-input responses, and the XML library's parse (`none` models
`ElementTree.ParseError`).  All may depend on the history so far. -/
structure Device where
  ok : Tr → Cmd → Bool
  out : Tr → Cmd → String
  stdin : Tr → String
  xml : String → Option XElem

/-- `subprocess.run(command, check=True, ...)` (src/adb.py line 23): record
the command; raise `CalledProcessError` on a non-zero exit, otherwise
return the captured stdout. -/
def run_adb_command (dev : Device) (c : Cmd) : Eff String := fun t =>
  (t ++ [.cmd c], if dev.ok t c then .ok (dev.out t c) else .error (.cpe c))

/-- Python `input(msg)`: record the prompt, return the response. -/
def inputLine (dev : Device) (msg : String) : Eff String := fun t =>
  (t ++ [.prompt msg], .ok (dev.stdin t))

/-- Python `print(msg, ...)`. -/
def printMsg (msg : String) : Eff Unit := fun t =>
  (t ++ [.println msg], .ok ())

/-- `try: body except: pass finally: fin` — any exception of `body` is
swallowed; `fin` always runs and its exception propagates. -/
def pyTryExceptPassFinally (body fin : Eff Unit) : Eff Unit := fun t =>
  fin (body t).1

/-- `try: body except: onErr else: onOk` — `onOk` exactly when `body`
raised nothing. -/
def pyTryExceptElse (body onErr onOk : Eff Unit) : Eff Unit := fun t =>
  match body t with
  | (t1, .ok _) => onOk t1
  | (t1, .error _) => onErr t1

def discardOut (x : Eff String) : Eff Unit := do
  let _ ← x
  pure ()

/-! ### src/adb.py -/

namespace Adb

def pair (dev : Device) (url pairing_code : String) : Eff Unit :=
  discardOut (run_adb_command dev ["adb", "pair", url, pairing_code])

/-- `extract` (src/adb.py lines 41-58): query the APK path, strip / remove
`"package:"` / take the first line, and pull it when nonempty. -/
def extract (dev : Device) (package_name target : String) : Eff Unit := do
  let s ← run_adb_command dev ["adb", "shell", "pm", "path", package_name]
  let apk_path : List Char :=
    (splitOnChar '\n'
      (replaceAll ("package:").data [] (pyStrip [' ', '\t', '\n', '\r'] s.data))).headD []
  if apk_path.isEmpty then pure ()
  else
    discardOut
      (run_adb_command dev ["adb", "pull", String.mk apk_path, target ++ "/" ++ package_name ++ ".apk"])

def connect (dev : Device) (url : String) : Eff Unit :=
  discardOut (run_adb_command dev ["adb", "connect", url])

/-- `is_connected` (src/adb.py lines 76-90): any line after the header of
`adb devices` containing the substring `"device"`. -/
def is_connected (dev : Device) : Eff Bool := do
  let s ← run_adb_command dev ["adb", "devices"]
  pure (((splitlines s).drop 1).any (fun line => pyIn ("device") line))

/-- `is_installed` (src/adb.py lines 93-105): substring test of the package
name against the raw `pm list packages <name>` output. -/
def is_installed (dev : Device) (package_name : String) : Eff Bool := do
  let s ← run_adb_command dev ["adb", "shell", "pm", "list", "packages", package_name]
  pure (pyIn package_name s)

/-- `is_enabled` (src/adb.py lines 108-123): substring test against the raw
`pm list packages -e` output. -/
def is_enabled (dev : Device) (package_name : String) : Eff Bool := do
  let s ← run_adb_command dev ["adb", "shell", "pm", "list", "packages", "-e"]
  pure (pyIn package_name s)

def clear_data (dev : Device) (package_name : String) : Eff Unit :=
  discardOut (run_adb_command dev ["adb", "shell", "pm", "clear", package_name])

/-- `uninstall` (src/adb.py lines 162-187): `try` the all-users uninstall,
`except: pass`, and in the `finally` block run the user-0 uninstall. -/
def uninstall (dev : Device) (package_name : String) : Eff Unit :=
  pyTryExceptPassFinally
    (discardOut (run_adb_command dev ["adb", "uninstall", package_name]))
    (discardOut (run_adb_command dev ["adb", "uninstall", "--user", "0", package_name]))

def enable (dev : Device) (package_name : String) : Eff Unit :=
  discardOut (run_adb_command dev ["adb", "shell", "pm", "enable", package_name])

/-- `disable` (src/adb.py lines 204-229): `try` a full uninstall,
`except: pass`, and in the `finally` block disable for the current user. -/
def disable (dev : Device) (package_name : String) : Eff Unit :=
  pyTryExceptPassFinally
    (discardOut (run_adb_command dev ["adb", "uninstall", package_name]))
    (discardOut (run_adb_command dev ["adb", "shell", "pm", "disable-user", package_name]))

def tap (dev : Device) (x y : Int) : Eff Unit :=
  discardOut (run_adb_command dev ["adb", "shell", "input", "tap", toString x, toString y])

def max_attempts : Nat := 5

def dumpCmd : Cmd := ["adb", "shell", "uiautomator", "dump"]

def catCmd : Cmd := ["adb", "shell", "cat", "/sdcard/window_dump.xml"]

/-- The `for i in range(max_attempts)` retry loop of `find_install_button`
(src/adb.py lines 270-284), by remaining fuel: each attempt dumps the UI,
reads the dump back, parses it (a malformed document raises), and takes
the first node labelled `Install`; the `for`-`else` yields `none` when all
attempts found nothing. -/
def fibLoop (dev : Device) : Nat → Eff (Option XElem)
  | 0 => pure none
  | fuel + 1 => do
    let _ ← run_adb_command dev dumpCmd
    let s ← run_adb_command dev catCmd
    match dev.xml s with
    | none => Eff.throw PyErr.parseError
    | some root =>
      match firstInstall root with
      | some node => Eff.pure (some node)
      | none => fibLoop dev fuel

/-- `find_install_button` (src/adb.py lines 247-291): the retry loop, then
the bounds-string centre computation on the found node; a missing `bounds`
attribute raises `AttributeError`, a malformed bounds string `ValueError`. -/
def find_install_button (dev : Device) : Eff (Option (Int × Int)) := do
  let r ← fibLoop dev max_attempts
  match r with
  | none => Eff.pure none
  | some node =>
    match getAttr node ("bounds") with
    | none => Eff.throw PyErr.attrError
    | some b =>
      match boundsCenter b.data with
      | none => Eff.throw PyErr.valueError
      | some xy => Eff.pure (some xy)

/-- `click_install_in_playstore` (src/adb.py lines 294-306): unpacking
`x, y = find_install_button()` raises `TypeError` when it returned `None`. -/
def click_install_in_playstore (dev : Device) : Eff Unit := do
  let r ← find_install_button dev
  match r with
  | none => Eff.throw PyErr.typeError
  | some xy => tap dev xy.1 xy.2

def navigate_playstore (dev : Device) (package_name : String) : Eff Unit :=
  discardOut
    (run_adb_command dev
      ["adb", "shell", "am", "start", "-a", "android.intent.action.VIEW", "-d",
        "market://details?id=" ++ package_name])

def install_from_playstore (dev : Device) (package_name : String) : Eff Unit := do
  navigate_playstore dev package_name
  click_install_in_playstore dev

end Adb

/-! ### src/main.py -/

namespace Main

/-- `connect` (src/main.py lines 8-17). -/
def connect (dev : Device) : Eff Unit := do
  let c ← Adb.is_connected dev
  if c then Eff.pure ()
  else do
    let url ← inputLine dev ("URL: ")
    Adb.connect dev url
    let c2 ← Adb.is_connected dev
    if c2 then Eff.pure ()
    else do
      printMsg ("Seems like the device isn't paired.")
      let pairing_url ← inputLine dev ("Pairing URL: ")
      let code ← inputLine dev ("Pairing code: ")
      Adb.pair dev pairing_url code
      Adb.connect dev url

def freezeHeader (package : String) : String := "Disabling: " ++ package ++ "... "

/-- The body of `freeze`'s `try` block (src/main.py lines 26-27). -/
def freezeBody (dev : Device) (package : String) : Eff Unit := do
  Adb.clear_data dev package
  Adb.disable dev package

/-- One iteration of `freeze`'s loop (src/main.py lines 21-31). -/
def freezeStep (dev : Device) (package : String) : Eff Unit := do
  let en ← Adb.is_enabled dev package
  if en then do
    printMsg (freezeHeader package)
    pyTryExceptElse (freezeBody dev package) (printMsg ("Failed!!!")) (printMsg ("Done!"))
  else Eff.pure ()

/-- `freeze` (src/main.py lines 20-31), over an explicit package list. -/
def freeze (dev : Device) : List String → Eff Unit
  | [] => Eff.pure ()
  | p :: rest => do
    freezeStep dev p
    freeze dev rest

def uninstallHeader (package : String) : String := "Uninstalling: " ++ package ++ "... "

/-- The body of `uninstall`'s `try` block (src/main.py lines 42-44). -/
def uninstallBody (dev : Device) (target package : String) : Eff Unit := do
  Adb.clear_data dev package
  Adb.extract dev package target
  Adb.uninstall dev package

/-- One iteration of `uninstall`'s loop (src/main.py lines 37-48). -/
def uninstallStep (dev : Device) (target package : String) : Eff Unit := do
  let inst ← Adb.is_installed dev package
  if inst then do
    printMsg (uninstallHeader package)
    pyTryExceptElse (uninstallBody dev target package) (printMsg ("Failed!!!")) (printMsg ("Done"))
  else Eff.pure ()

/-- `uninstall` (src/main.py lines 34-48), over an explicit package list;
the backup-directory creation precedes the loop and touches no adb state. -/
def uninstall (dev : Device) (target : String) : List String → Eff Unit
  | [] => Eff.pure ()
  | p :: rest => do
    uninstallStep dev target p
    uninstall dev target rest

def installHeader (package : String) : String := "Installing: " ++ package ++ "... "

/-- One iteration of `install_from_playstore`'s loop (src/main.py lines 52-61). -/
def installStep (dev : Device) (package : String) : Eff Unit := do
  let inst ← Adb.is_installed dev package
  if inst then Eff.pure ()
  else do
    printMsg (installHeader package)
    pyTryExceptElse (Adb.install_from_playstore dev package)
      (printMsg ("Failed!!!")) (printMsg ("Done"))

/-- `install_from_playstore` (src/main.py lines 51-61), over a package list. -/
def install_from_playstore (dev : Device) : List String → Eff Unit
  | [] => Eff.pure ()
  | p :: rest => do
    installStep dev p
    install_from_playstore dev rest

end Main

/-! ### Auxiliary definitions for the statements and witnesses -/

/-- The command events of `n` fruitless retrieval attempts of
`find_install_button` (one UI dump and one read-back per attempt). -/
def attTrace : Nat → List Event
  | 0 => []
  | n + 1 => Event.cmd Adb.dumpCmd :: Event.cmd Adb.catCmd :: attTrace n

/-- The stdout of the read-back command on attempt `i` of the retry loop
started from history `t`. -/
def catOutAt (dev : Device) (t : Tr) (i : Nat) : String :=
  dev.out ((t ++ attTrace i) ++ [Event.cmd Adb.dumpCmd]) Adb.catCmd

/-- Spec-side reading of `pm list packages` output: the package
identifiers listed, one `package:`-prefixed identifier per line. -/
def listedPackages (s : String) : List String :=
  (splitlines s).map (fun l =>
    if ("package:").data.isPrefixOf l.data then String.mk (l.data.drop 8) else l)

/-- A well-formed bounds string `[x1,y1][x2,y2]` assembled from the four
integer literals. -/
def mkBounds (d1 d2 d3 d4 : List Char) : List Char :=
  '[' :: d1 ++ ',' :: d2 ++ ']' :: '[' :: d3 ++ ',' :: d4 ++ [']']

/-- A device whose package listing holds a single package
`com.example.foobar`, every command succeeding. -/
def devSub : Device where
  ok := fun _ _ => true
  out := fun _ _ => "package:com.example.foobar"
  stdin := fun _ => ""
  xml := fun _ => none

/-- A device that reports one connected device on `adb devices`. -/
def devConn : Device where
  ok := fun _ _ => true
  out := fun _ _ => "List of devices attached\nemulator-5554\tdevice\n"
  stdin := fun _ => ""
  xml := fun _ => none

/-- A device on which clearing package `w` and opening the Play Store page
of package `v` fail, while every listing reports exactly package `w`. -/
def devFail : Device where
  ok := fun _ c =>
    !(c == ["adb", "shell", "pm", "clear", "w"] ||
      c == ["adb", "shell", "am", "start", "-a", "android.intent.action.VIEW", "-d",
        "market://details?id=v"])
  out := fun _ _ => "package:w"
  stdin := fun _ => ""
  xml := fun _ => none

/-- A device whose UI dumps always parse to an empty hierarchy. -/
def devEmptyDoc : Device where
  ok := fun _ _ => true
  out := fun _ _ => ""
  stdin := fun _ => ""
  xml := fun _ => some (XElem.mk ("hierarchy") [] [])

/-- A device whose UI dumps are always malformed XML. -/
def devBadXml : Device where
  ok := fun _ _ => true
  out := fun _ _ => ""
  stdin := fun _ => ""
  xml := fun _ => none

/-- A node labelled `install` in lowercase. -/
def nodeLower : XElem :=
  XElem.mk ("node") [⟨"text", "install"⟩] []

/-- A hierarchy containing only the lowercase-labelled node. -/
def rootLower : XElem :=
  XElem.mk ("hierarchy") [] [nodeLower]

/-- Two distinct nodes labelled `Install`. -/
def nodeA : XElem :=
  XElem.mk ("node") [⟨"text", "Install"⟩, ⟨"bounds", "[10,20][30,40]"⟩] []

def nodeB : XElem :=
  XElem.mk ("node") [⟨"text", "Install"⟩, ⟨"bounds", "[100,200][300,400]"⟩] []

/-- A hierarchy holding both `Install` nodes, `nodeA` first in document
order. -/
def rootTwo : XElem :=
  XElem.mk ("hierarchy") [] [nodeA, nodeB]

/-- A device whose UI dumps always parse to `rootTwo`. -/
def devTwo : Device where
  ok := fun _ _ => true
  out := fun _ _ => ""
  stdin := fun _ => ""
  xml := fun _ => some rootTwo

/-! ## Theorems -/

theorem Eff.bind_eq (x : Eff α) (f : α → Eff β) : x >>= f = Eff.bind x f := rfl

theorem Eff.pure_eq (a : α) : (Pure.pure a : Eff α) = Eff.pure a := rfl

/-- C3: for every package name, the uninstall operation first attempts the
all-users uninstall and unconditionally ignores any failure of it, then
always performs the user-0 uninstall, whose failure propagates: on any
device the trace is exactly the two uninstall commands in that order, and
the result is the outcome of the second command alone. -/
theorem C3_uninstall_all_users_then_user0 (dev : Device) (pkg : String) (t : Tr) :
    Adb.uninstall dev pkg t =
      (t ++ [Event.cmd ["adb", "uninstall", pkg],
             Event.cmd ["adb", "uninstall", "--user", "0", pkg]],
        if dev.ok (t ++ [Event.cmd ["adb", "uninstall", pkg]])
            ["adb", "uninstall", "--user", "0", pkg] then
          Except.ok ()
        else
          Except.error (PyErr.cpe ["adb", "uninstall", "--user", "0", pkg])) := by
  by_cases h1 : dev.ok t ["adb", "uninstall", pkg] <;>
    by_cases h2 : dev.ok (t ++ [Event.cmd ["adb", "uninstall", pkg]])
      ["adb", "uninstall", "--user", "0", pkg] <;>
    simp [Adb.uninstall, pyTryExceptPassFinally, discardOut, run_adb_command,
      Eff.bind_eq, Eff.bind, Eff.pure_eq, Eff.pure, h1, h2]

/-- C8: if the device is already connected (the `adb devices` listing shows
a connected device), the connect step issues no prompt and no connect or
pair command: its whole trace is the single `adb devices` query. -/
theorem C8_connect_noop_when_connected (dev : Device) (t : Tr)
    (hok : dev.ok t ["adb", "devices"] = true)
    (hconn : ((splitlines (dev.out t ["adb", "devices"])).drop 1).any
      (fun line => pyIn ("device") line) = true) :
    Main.connect dev t = (t ++ [Event.cmd ["adb", "devices"]], Except.ok ()) := by
  have h2 : Adb.is_connected dev t = (t ++ [Event.cmd ["adb", "devices"]], Except.ok true) := by
    simp only [Adb.is_connected, run_adb_command, Eff.bind_eq, Eff.bind,
      Eff.pure_eq, Eff.pure, hok, eq_self_iff_true, if_true, hconn]
  simp only [Main.connect, Eff.bind_eq, Eff.bind, h2, eq_self_iff_true, if_true,
    Eff.pure_eq, Eff.pure]

theorem C8_witness :
    Main.connect devConn [] = ([Event.cmd ["adb", "devices"]], Except.ok ()) :=
  C8_connect_noop_when_connected devConn [] rfl (by decide)

/-- C4: a package of the uninstall list that the installed-check reports
absent is skipped entirely: the batch loop issues only the listing query
for it (no data clearing, no extraction, no uninstall command) and then
behaves exactly as the loop over the remaining packages. -/
theorem C4_not_installed_skipped (dev : Device) (target pkg : String)
    (rest : List String) (t : Tr)
    (hok : dev.ok t ["adb", "shell", "pm", "list", "packages", pkg] = true)
    (habs : pyIn pkg (dev.out t ["adb", "shell", "pm", "list", "packages", pkg]) = false) :
    Main.uninstall dev target (pkg :: rest) t =
      Main.uninstall dev target rest
        (t ++ [Event.cmd ["adb", "shell", "pm", "list", "packages", pkg]]) := by
  simp [Main.uninstall, Main.uninstallStep, Adb.is_installed, run_adb_command,
    Eff.bind_eq, Eff.bind, Eff.pure_eq, Eff.pure, hok, habs]

theorem C4_witness :
    Main.uninstall devSub ("/backup") ["com.missing.app"] [] =
      Main.uninstall devSub ("/backup") []
        [Event.cmd ["adb", "shell", "pm", "list", "packages", "com.missing.app"]] :=
  C4_not_installed_skipped devSub "/backup" "com.missing.app" [] [] rfl (by decide)

/-- C10: the installed-check and the enabled-check are substring tests on
the raw listing output, not exact-name matches; in particular on a device
whose only listed package is `com.example.foobar`, the installed-check
answers true for `com.example.foo` although no listed package bears that
name. -/
theorem C10_substring_membership :
    (∀ (dev : Device) (pkg : String) (t : Tr),
        dev.ok t ["adb", "shell", "pm", "list", "packages", pkg] = true →
        Adb.is_installed dev pkg t =
          (t ++ [Event.cmd ["adb", "shell", "pm", "list", "packages", pkg]],
            Except.ok (pyIn pkg (dev.out t ["adb", "shell", "pm", "list", "packages", pkg])))) ∧
    (∀ (dev : Device) (pkg : String) (t : Tr),
        dev.ok t ["adb", "shell", "pm", "list", "packages", "-e"] = true →
        Adb.is_enabled dev pkg t =
          (t ++ [Event.cmd ["adb", "shell", "pm", "list", "packages", "-e"]],
            Except.ok (pyIn pkg (dev.out t ["adb", "shell", "pm", "list", "packages", "-e"])))) ∧
    (Adb.is_installed devSub ("com.example.foo") [] =
        ([Event.cmd ["adb", "shell", "pm", "list", "packages", "com.example.foo"]],
          Except.ok true) ∧
      ("com.example.foo" ∉ listedPackages ("package:com.example.foobar"))) := by
  refine ⟨?_, ?_, ?_, ?_⟩
  · intro dev pkg t hok
    simp [Adb.is_installed, run_adb_command, Eff.bind_eq, Eff.bind,
      Eff.pure_eq, Eff.pure, hok]
  · intro dev pkg t hok
    simp [Adb.is_enabled, run_adb_command, Eff.bind_eq, Eff.bind,
      Eff.pure_eq, Eff.pure, hok]
  · rfl
  · decide

theorem find?_eq_head?_filter (p : α → Bool) :
    ∀ l : List α, l.find? p = (l.filter p).head? := by
  intro l
  induction l with
  | nil => rfl
  | cons a l ih =>
    by_cases h : p a
    · rw [List.find?_cons_of_pos _ h, List.filter_cons_of_pos h, List.head?_cons]
    · rw [List.find?_cons_of_neg _ h, List.filter_cons_of_neg h, ih]

/-- C6: label matching is case-sensitive exact equality: a node whose
`text` attribute is the lowercase `install` is never the node selected by
the locator's first-match search. -/
theorem C6_case_sensitive (root : XElem) (n : XElem)
    (h : getAttr n ("text") = some ("install")) :
    firstInstall root ≠ some n := by
  intro hfind
  have hp : isInstall n = true := List.find?_some hfind
  rw [isInstall, h] at hp
  exact absurd hp (by decide)

theorem C6_witness : firstInstall rootLower ≠ some nodeLower :=
  C6_case_sensitive rootLower nodeLower rfl

/-- C5: when a document holds two or more nodes labelled `Install`, the
locator selects the one first in document order and returns the centre of
that node's bounding rectangle: on a first attempt whose dump parses to
such a document, `find_install_button` answers the centre of the first
match's bounds. -/
theorem C5_first_in_document_order (dev : Device) (t : Tr)
    (root n1 n2 : XElem) (ns : List XElem) (b : String) (x1 y1 x2 y2 : Int)
    (hok1 : dev.ok t Adb.dumpCmd = true)
    (hok2 : dev.ok (t ++ [Event.cmd Adb.dumpCmd]) Adb.catCmd = true)
    (hxml : dev.xml (dev.out (t ++ [Event.cmd Adb.dumpCmd]) Adb.catCmd) = some root)
    (hmatches : installMatches root = n1 :: n2 :: ns)
    (hb : getAttr n1 ("bounds") = some b)
    (hparse : pyParseBounds b.data = some (x1, y1, x2, y2)) :
    Adb.find_install_button dev t =
      (t ++ [Event.cmd Adb.dumpCmd, Event.cmd Adb.catCmd],
        Except.ok (some ((x1 + x2).fdiv 2, (y1 + y2).fdiv 2))) := by
  have hfirst : firstInstall root = some n1 := by
    rw [firstInstall, find?_eq_head?_filter]
    rw [installMatches] at hmatches
    rw [hmatches]
    rfl
  have hloop : Adb.fibLoop dev Adb.max_attempts t =
      (t ++ [Event.cmd Adb.dumpCmd, Event.cmd Adb.catCmd], Except.ok (some n1)) := by
    show Adb.fibLoop dev (4 + 1) t = _
    simp only [Adb.fibLoop, run_adb_command, Eff.bind_eq, Eff.bind, Eff.pure_eq,
      Eff.pure, hok1, eq_self_iff_true, if_true, hok2, hxml, hfirst, List.append_assoc,
      List.cons_append, List.nil_append]
  simp only [Adb.find_install_button, Eff.bind_eq, Eff.bind, hloop, hb,
    Eff.pure_eq, Eff.pure, boundsCenter, hparse]
  rfl

theorem C5_witness :
    Adb.find_install_button devTwo [] =
      ([Event.cmd Adb.dumpCmd, Event.cmd Adb.catCmd],
        Except.ok (some (20, 30))) :=
  C5_first_in_document_order devTwo [] rootTwo nodeA nodeB []
    "[10,20][30,40]" 10 20 30 40 rfl rfl rfl rfl rfl rfl

theorem attTrace_succ_append (t : Tr) (i : Nat) :
    t ++ attTrace (i + 1) = (t ++ [Event.cmd Adb.dumpCmd, Event.cmd Adb.catCmd]) ++ attTrace i := by
  simp [attTrace]

theorem catOutAt_shift (dev : Device) (t : Tr) (i : Nat) :
    catOutAt dev (t ++ [Event.cmd Adb.dumpCmd, Event.cmd Adb.catCmd]) i =
      catOutAt dev t (i + 1) := by
  rw [catOutAt, catOutAt, attTrace_succ_append]

/-- The retry loop returns `none` after running out of fuel when every
attempt's document parses and holds no `Install` node. -/
theorem fibLoop_none (dev : Device)
    (hok1 : ∀ u, dev.ok u Adb.dumpCmd = true)
    (hok2 : ∀ u, dev.ok u Adb.catCmd = true) :
    ∀ (fuel : Nat) (t : Tr),
      (∀ i, i < fuel → ∃ root, dev.xml (catOutAt dev t i) = some root ∧ firstInstall root = none) →
      Adb.fibLoop dev fuel t = (t ++ attTrace fuel, Except.ok none) := by
  intro fuel
  induction fuel with
  | zero => intro t _; simp [Adb.fibLoop, Eff.pure_eq, Eff.pure, attTrace]
  | succ n ih =>
    intro t h
    obtain ⟨root, hx, hf⟩ := h 0 (Nat.succ_pos n)
    have hx0 : dev.xml (dev.out (t ++ [Event.cmd Adb.dumpCmd]) Adb.catCmd) = some root := by
      rw [catOutAt] at hx
      simpa using hx
    have hrec := ih (t ++ [Event.cmd Adb.dumpCmd, Event.cmd Adb.catCmd]) (by
      intro i hi
      rw [catOutAt_shift]
      exact h (i + 1) (Nat.succ_lt_succ hi))
    simp only [Adb.fibLoop, run_adb_command, Eff.bind_eq, Eff.bind, Eff.pure_eq,
      Eff.pure, hok1, hok2, eq_self_iff_true, if_true, List.append_assoc,
      List.cons_append, List.nil_append, hx0, hf]
    rw [hrec]
    simp [attTrace]

/-- C2: when every attempt's retrieved document parses and no node of any
of them is labelled `Install`, the locator exhausts its five attempts,
returns the explicit absence value and raises nothing. -/
theorem C2_returns_none_after_retries (dev : Device) (t : Tr)
    (hok1 : ∀ u, dev.ok u Adb.dumpCmd = true)
    (hok2 : ∀ u, dev.ok u Adb.catCmd = true)
    (hnone : ∀ i, i < Adb.max_attempts →
      ∃ root, dev.xml (catOutAt dev t i) = some root ∧ firstInstall root = none) :
    Adb.find_install_button dev t = (t ++ attTrace Adb.max_attempts, Except.ok none) := by
  have h := fibLoop_none dev hok1 hok2 Adb.max_attempts t hnone
  simp only [Adb.find_install_button, Eff.bind_eq, Eff.bind, h, Eff.pure_eq, Eff.pure]

theorem C2_witness :
    Adb.find_install_button devEmptyDoc [] =
      (attTrace Adb.max_attempts, Except.ok none) :=
  C2_returns_none_after_retries devEmptyDoc [] (fun _ => rfl) (fun _ => rfl)
    (fun _ _ => ⟨XElem.mk ("hierarchy") [] [], rfl, rfl⟩)

/-- The retry loop surfaces a parse error on the first malformed attempt,
all earlier attempts having parsed and matched nothing. -/
theorem fibLoop_parse_error (dev : Device)
    (hok1 : ∀ u, dev.ok u Adb.dumpCmd = true)
    (hok2 : ∀ u, dev.ok u Adb.catCmd = true) :
    ∀ (k fuel : Nat) (t : Tr), k < fuel →
      (∀ i, i < k → ∃ root, dev.xml (catOutAt dev t i) = some root ∧ firstInstall root = none) →
      dev.xml (catOutAt dev t k) = none →
      Adb.fibLoop dev fuel t =
        ((t ++ attTrace k) ++ [Event.cmd Adb.dumpCmd, Event.cmd Adb.catCmd],
          Except.error PyErr.parseError) := by
  intro k
  induction k with
  | zero =>
    intro fuel t hlt _ hbad
    cases fuel with
    | zero => exact absurd hlt (Nat.lt_irrefl 0)
    | succ n =>
      have hx0 : dev.xml (dev.out (t ++ [Event.cmd Adb.dumpCmd]) Adb.catCmd) = none := by
        rw [catOutAt] at hbad
        simpa using hbad
      simp only [Adb.fibLoop, run_adb_command, Eff.bind_eq, Eff.bind, Eff.pure_eq,
        Eff.pure, hok1, hok2, eq_self_iff_true, if_true, hx0, Eff.throw, attTrace,
        List.append_assoc, List.cons_append, List.nil_append]
  | succ k ih =>
    intro fuel t hlt h hbad
    cases fuel with
    | zero => exact absurd hlt (Nat.not_lt_zero _)
    | succ n =>
      obtain ⟨root, hx, hf⟩ := h 0 (Nat.succ_pos k)
      have hx0 : dev.xml (dev.out (t ++ [Event.cmd Adb.dumpCmd]) Adb.catCmd) = some root := by
        rw [catOutAt] at hx
        simpa using hx
      have hrec := ih n (t ++ [Event.cmd Adb.dumpCmd, Event.cmd Adb.catCmd])
        (Nat.lt_of_succ_lt_succ hlt)
        (by
          intro i hi
          rw [catOutAt_shift]
          exact h (i + 1) (Nat.succ_lt_succ hi))
        (by rw [catOutAt_shift]; exact hbad)
      simp only [Adb.fibLoop, run_adb_command, Eff.bind_eq, Eff.bind, Eff.pure_eq,
        Eff.pure, hok1, hok2, eq_self_iff_true, if_true, hx0, hf, List.append_assoc,
        List.cons_append, List.nil_append]
      rw [hrec]
      simp [attTrace]

/-- C9: a malformed retrieved document makes the locator raise the parse
error of that attempt (attempt `k`, each earlier attempt having parsed and
matched nothing); only the not-found outcome is suppressed by the retries. -/
theorem C9_malformed_document_raises (dev : Device) (t : Tr) (k : Nat)
    (hk : k < Adb.max_attempts)
    (hok1 : ∀ u, dev.ok u Adb.dumpCmd = true)
    (hok2 : ∀ u, dev.ok u Adb.catCmd = true)
    (hpre : ∀ i, i < k → ∃ root, dev.xml (catOutAt dev t i) = some root ∧ firstInstall root = none)
    (hbad : dev.xml (catOutAt dev t k) = none) :
    Adb.find_install_button dev t =
      ((t ++ attTrace k) ++ [Event.cmd Adb.dumpCmd, Event.cmd Adb.catCmd],
        Except.error PyErr.parseError) := by
  have h := fibLoop_parse_error dev hok1 hok2 k Adb.max_attempts t hk hpre hbad
  simp only [Adb.find_install_button, Eff.bind_eq, Eff.bind, h]

theorem C9_witness :
    Adb.find_install_button devBadXml [] =
      ([Event.cmd Adb.dumpCmd, Event.cmd Adb.catCmd], Except.error PyErr.parseError) :=
  C9_malformed_document_raises devBadXml [] 0 (by decide) (fun _ => rfl) (fun _ => rfl)
    (fun i hi => absurd hi (Nat.not_lt_zero i)) rfl

/-- C7: in each of the three batches, a failure raised by the per-package
operations is caught, the failure marker is printed, and the loop carries
on with the remaining packages from the post-failure state: the loop on
`p :: rest` equals the loop on `rest` alone. -/
theorem C7_per_package_failures_swallowed :
    (∀ (dev : Device) (p : String) (rest : List String) (t t1 t2 : Tr) (e : PyErr),
        Adb.is_enabled dev p t = (t1, Except.ok true) →
        Main.freezeBody dev p (t1 ++ [Event.println (Main.freezeHeader p)]) =
          (t2, Except.error e) →
        Main.freeze dev (p :: rest) t =
          Main.freeze dev rest (t2 ++ [Event.println ("Failed!!!")])) ∧
    (∀ (dev : Device) (target p : String) (rest : List String) (t t1 t2 : Tr) (e : PyErr),
        Adb.is_installed dev p t = (t1, Except.ok true) →
        Main.uninstallBody dev target p (t1 ++ [Event.println (Main.uninstallHeader p)]) =
          (t2, Except.error e) →
        Main.uninstall dev target (p :: rest) t =
          Main.uninstall dev target rest (t2 ++ [Event.println ("Failed!!!")])) ∧
    (∀ (dev : Device) (p : String) (rest : List String) (t t1 t2 : Tr) (e : PyErr),
        Adb.is_installed dev p t = (t1, Except.ok false) →
        Adb.install_from_playstore dev p (t1 ++ [Event.println (Main.installHeader p)]) =
          (t2, Except.error e) →
        Main.install_from_playstore dev (p :: rest) t =
          Main.install_from_playstore dev rest (t2 ++ [Event.println ("Failed!!!")])) := by
  refine ⟨?_, ?_, ?_⟩
  · intro dev p rest t t1 t2 e h1 h2
    simp only [Main.freeze, Main.freezeStep, Eff.bind_eq, Eff.bind, h1,
      eq_self_iff_true, if_true, printMsg, pyTryExceptElse, h2, Eff.pure_eq, Eff.pure]
  · intro dev target p rest t t1 t2 e h1 h2
    simp only [Main.uninstall, Main.uninstallStep, Eff.bind_eq, Eff.bind, h1,
      eq_self_iff_true, if_true, printMsg, pyTryExceptElse, h2, Eff.pure_eq, Eff.pure]
  · intro dev p rest t t1 t2 e h1 h2
    simp only [Main.install_from_playstore, Main.installStep, Eff.bind_eq, Eff.bind, h1,
      Bool.false_eq_true, if_false, printMsg, pyTryExceptElse, h2, Eff.pure_eq, Eff.pure]

theorem C7_witness :
    Main.freeze devFail ["w"] [] =
      Main.freeze devFail []
        ([Event.cmd ["adb", "shell", "pm", "list", "packages", "-e"],
          Event.println (Main.freezeHeader ("w")),
          Event.cmd ["adb", "shell", "pm", "clear", "w"],
          Event.println ("Failed!!!")]) ∧
    Main.uninstall devFail ("/backup") ["w"] [] =
      Main.uninstall devFail ("/backup") []
        ([Event.cmd ["adb", "shell", "pm", "list", "packages", "w"],
          Event.println (Main.uninstallHeader ("w")),
          Event.cmd ["adb", "shell", "pm", "clear", "w"],
          Event.println ("Failed!!!")]) ∧
    Main.install_from_playstore devFail ["v"] [] =
      Main.install_from_playstore devFail []
        ([Event.cmd ["adb", "shell", "pm", "list", "packages", "v"],
          Event.println (Main.installHeader ("v")),
          Event.cmd ["adb", "shell", "am", "start", "-a", "android.intent.action.VIEW",
            "-d", "market://details?id=v"],
          Event.println ("Failed!!!")]) :=
  ⟨C7_per_package_failures_swallowed.1 devFail "w" [] []
      [Event.cmd ["adb", "shell", "pm", "list", "packages", "-e"]]
      [Event.cmd ["adb", "shell", "pm", "list", "packages", "-e"],
        Event.println (Main.freezeHeader ("w")),
        Event.cmd ["adb", "shell", "pm", "clear", "w"]]
      (PyErr.cpe ["adb", "shell", "pm", "clear", "w"]) rfl rfl,
    C7_per_package_failures_swallowed.2.1 devFail "/backup" "w" [] []
      [Event.cmd ["adb", "shell", "pm", "list", "packages", "w"]]
      [Event.cmd ["adb", "shell", "pm", "list", "packages", "w"],
        Event.println (Main.uninstallHeader ("w")),
        Event.cmd ["adb", "shell", "pm", "clear", "w"]]
      (PyErr.cpe ["adb", "shell", "pm", "clear", "w"]) rfl rfl,
    C7_per_package_failures_swallowed.2.2 devFail "v" [] []
      [Event.cmd ["adb", "shell", "pm", "list", "packages", "v"]]
      [Event.cmd ["adb", "shell", "pm", "list", "packages", "v"],
        Event.println (Main.installHeader ("v")),
        Event.cmd ["adb", "shell", "am", "start", "-a", "android.intent.action.VIEW",
          "-d", "market://details?id=v"]]
      (PyErr.cpe ["adb", "shell", "am", "start", "-a", "android.intent.action.VIEW",
        "-d", "market://details?id=v"]) rfl rfl⟩

theorem digitsVal_isDigit :
    ∀ (l : List Char) (acc n : Nat), digitsVal l acc = some n →
      ∀ c ∈ l, c.isDigit = true := by
  intro l
  induction l with
  | nil => intro acc n _ c hc; exact absurd hc (List.not_mem_nil c)
  | cons a l ih =>
    intro acc n h c hc
    rw [digitsVal] at h
    by_cases ha : a.isDigit
    · rw [if_pos ha] at h
      rcases List.mem_cons.mp hc with rfl | hc
      · exact ha
      · exact ih _ n h c hc
    · rw [if_neg ha] at h
      exact absurd h (by simp)

theorem pyInt?_chars (l : List Char) (x : Int) (h : pyInt? l = some x) :
    ∀ c ∈ l, c.isDigit = true ∨ c = '-' ∨ c = '+' := by
  intro c hc
  match l, hc with
  | a :: l, hc =>
    rw [pyInt?] at h
    by_cases ha1 : a = '-'
    · subst ha1
      rw [if_pos rfl] at h
      rcases List.mem_cons.mp hc with rfl | hc
      · exact Or.inr (Or.inl rfl)
      · rw [digits?] at h
        split at h
        · exact absurd h (by simp)
        · obtain ⟨n, hn, -⟩ := Option.map_eq_some'.mp h
          exact Or.inl (digitsVal_isDigit l 0 n hn c hc)
    · rw [if_neg ha1] at h
      by_cases ha2 : a = '+'
      · subst ha2
        rw [if_pos rfl] at h
        rcases List.mem_cons.mp hc with rfl | hc
        · exact Or.inr (Or.inr rfl)
        · rw [digits?] at h
          split at h
          · exact absurd h (by simp)
          · obtain ⟨n, hn, -⟩ := Option.map_eq_some'.mp h
            exact Or.inl (digitsVal_isDigit l 0 n hn c hc)
      · rw [if_neg ha2, digits?] at h
        split at h
        · exact absurd h (by simp)
        · obtain ⟨n, hn, -⟩ := Option.map_eq_some'.mp h
          exact Or.inl (digitsVal_isDigit (a :: l) 0 n hn c hc)

theorem pyInt?_ne_nil (l : List Char) (x : Int) (h : pyInt? l = some x) : l ≠ [] := by
  intro hnil
  subst hnil
  exact absurd h (by simp [pyInt?])

theorem intChar_ne_rb (c : Char) (h : c.isDigit = true ∨ c = '-' ∨ c = '+') :
    c ≠ ']' := by
  intro hEq
  subst hEq
  exact absurd h (by decide)

theorem intChar_ne_lb (c : Char) (h : c.isDigit = true ∨ c = '-' ∨ c = '+') :
    c ≠ '[' := by
  intro hEq
  subst hEq
  exact absurd h (by decide)

theorem intChar_ne_comma (c : Char) (h : c.isDigit = true ∨ c = '-' ∨ c = '+') :
    c ≠ ',' := by
  intro hEq
  subst hEq
  exact absurd h (by decide)

theorem not_bracket_split (c : Char) (h : (['[', ']'].contains c) = false) :
    c ≠ '[' ∧ c ≠ ']' := by
  simp only [List.contains_cons, Bool.or_eq_false_iff, beq_eq_false_iff_ne, ne_eq] at h
  exact ⟨h.1, h.2.1⟩

theorem intChar_not_bracket (c : Char) (h : c.isDigit = true ∨ c = '-' ∨ c = '+') :
    (['[', ']'].contains c) = false := by
  simp only [List.contains_cons, Bool.or_eq_false_iff, beq_eq_false_iff_ne, ne_eq]
  exact ⟨intChar_ne_lb c h, intChar_ne_rb c h, rfl⟩

theorem replaceSep_cons (c : Char) (h : c ≠ ']') :
    ∀ l, replaceSep (c :: l) = c :: replaceSep l := by
  intro l
  cases l with
  | nil => rfl
  | cons c2 rest =>
    rw [replaceSep, if_neg]
    intro hand
    exact h hand.1

theorem replaceSep_append (l r : List Char) (h : ∀ c ∈ l, c ≠ ']') :
    replaceSep (l ++ r) = l ++ replaceSep r := by
  induction l with
  | nil => rfl
  | cons a l ih =>
    rw [List.cons_append, replaceSep_cons a (h a (List.mem_cons_self a l)),
      ih (fun c hc => h c (List.mem_cons_of_mem a hc))]
    rfl

theorem replaceSep_sep (r : List Char) :
    replaceSep (']' :: '[' :: r) = ',' :: replaceSep r := by
  rw [replaceSep, if_pos ⟨rfl, rfl⟩]

theorem splitOnChar_no_sep (sep : Char) (l : List Char) (h : ∀ c ∈ l, c ≠ sep) :
    splitOnChar sep l = [l] := by
  induction l with
  | nil => rfl
  | cons a l ih =>
    rw [splitOnChar]
    simp only [ih (fun c hc => h c (List.mem_cons_of_mem a hc)),
      if_neg (h a (List.mem_cons_self a l))]
    rfl

theorem splitOnChar_append (sep : Char) (l r : List Char) (h : ∀ c ∈ l, c ≠ sep) :
    splitOnChar sep (l ++ sep :: r) = l :: splitOnChar sep r := by
  induction l with
  | nil => rw [List.nil_append, splitOnChar, if_pos rfl]
  | cons a l ih =>
    rw [List.cons_append, splitOnChar]
    simp only [ih (fun c hc => h c (List.mem_cons_of_mem a hc)),
      if_neg (h a (List.mem_cons_self a l))]
    rfl

theorem pyStrip_bounds (e f : Char) (m : List Char)
    (he : (['[', ']'].contains e) = false) (hf : (['[', ']'].contains f) = false) :
    pyStrip ['[', ']'] ('[' :: (e :: m ++ [f]) ++ [']']) = e :: m ++ [f] := by
  rw [pyStrip]
  have h1 : List.dropWhile (['[', ']'].contains ·) ('[' :: (e :: m ++ [f]) ++ [']'])
      = e :: m ++ [f] ++ [']'] := by
    rw [List.cons_append, List.dropWhile_cons_of_pos (by decide)]
    rw [show (e :: m ++ [f]) ++ ([']'] : List Char) = e :: (m ++ [f] ++ [']']) by simp]
    rw [List.dropWhile_cons_of_neg (by simpa using not_bracket_split e he)]
  have h2 : List.dropWhile (['[', ']'].contains ·) ((e :: m ++ [f] ++ [']']).reverse)
      = f :: (m.reverse ++ [e]) := by
    rw [show e :: m ++ [f] ++ ([']'] : List Char) = (e :: m ++ [f]) ++ [']'] by simp]
    rw [List.reverse_append]
    rw [show (([']'] : List Char)).reverse = [']'] from rfl]
    rw [List.singleton_append, List.dropWhile_cons_of_pos (by decide)]
    rw [show (e :: m ++ [f]).reverse = f :: (m.reverse ++ [e]) by simp]
    rw [List.dropWhile_cons_of_neg (by simpa using not_bracket_split f hf)]
  rw [h1, h2]
  simp

/-- C1: for every well-formed bounds string `[x1,y1][x2,y2]` (four integer
literals assembled in the bracketed format), the locator's centre
computation — replace `][` by a comma, strip the outer brackets, split on
commas, parse four integers — yields `((x1+x2)/2, (y1+y2)/2)` with floor
division. -/
theorem C1_center_floor_division (d1 d2 d3 d4 : List Char) (x1 y1 x2 y2 : Int)
    (h1 : pyInt? d1 = some x1) (h2 : pyInt? d2 = some y1)
    (h3 : pyInt? d3 = some x2) (h4 : pyInt? d4 = some y2) :
    boundsCenter (mkBounds d1 d2 d3 d4) =
      some ((x1 + x2).fdiv 2, (y1 + y2).fdiv 2) := by
  have hc1 := pyInt?_chars d1 x1 h1
  have hc2 := pyInt?_chars d2 y1 h2
  have hc3 := pyInt?_chars d3 x2 h3
  have hc4 := pyInt?_chars d4 y2 h4
  obtain ⟨e, d1t, rfl⟩ : ∃ e t, d1 = e :: t := by
    cases d1 with
    | nil => exact absurd h1 (by simp [pyInt?])
    | cons a t => exact ⟨a, t, rfl⟩
  obtain ⟨d4i, f, rfl⟩ : ∃ L b, d4 = L ++ [b] := by
    rcases List.eq_nil_or_concat d4 with hnil | ⟨L, b, hL⟩
    · subst hnil; exact absurd h4 (by simp [pyInt?])
    · exact ⟨L, b, by simpa [List.concat_eq_append] using hL⟩
  have hfmem : f ∈ d4i ++ [f] := List.mem_append.mpr (Or.inr (List.mem_singleton.mpr rfl))
  have hL1 : ∀ c ∈ ('[' :: (e :: d1t)) ++ (',' :: d2), c ≠ ']' := by
    intro c hc
    rcases List.mem_append.mp hc with hc | hc
    · rcases List.mem_cons.mp hc with rfl | hc
      · decide
      · exact intChar_ne_rb c (hc1 c hc)
    · rcases List.mem_cons.mp hc with rfl | hc
      · decide
      · exact intChar_ne_rb c (hc2 c hc)
  have hL2 : ∀ c ∈ d3 ++ (',' :: (d4i ++ [f])), c ≠ ']' := by
    intro c hc
    rcases List.mem_append.mp hc with hc | hc
    · exact intChar_ne_rb c (hc3 c hc)
    · rcases List.mem_cons.mp hc with rfl | hc
      · decide
      · exact intChar_ne_rb c (hc4 c hc)
  have eA : replaceSep (mkBounds (e :: d1t) d2 d3 (d4i ++ [f])) =
      '[' :: ((e :: (d1t ++ ',' :: d2 ++ ',' :: d3 ++ ',' :: d4i)) ++ [f]) ++ [']'] := by
    rw [mkBounds]
    rw [show '[' :: (e :: d1t) ++ ',' :: d2 ++ ']' :: '[' :: d3 ++ ',' :: (d4i ++ [f]) ++ [']']
        = (('[' :: (e :: d1t)) ++ (',' :: d2)) ++
          (']' :: '[' :: ((d3 ++ (',' :: (d4i ++ [f]))) ++ [']'])) by simp]
    rw [replaceSep_append (('[' :: (e :: d1t)) ++ (',' :: d2))
      (']' :: '[' :: ((d3 ++ (',' :: (d4i ++ [f]))) ++ [']'])) hL1]
    rw [replaceSep_sep ((d3 ++ (',' :: (d4i ++ [f]))) ++ [']'])]
    rw [replaceSep_append (d3 ++ (',' :: (d4i ++ [f]))) [']'] hL2]
    rw [show replaceSep [']'] = [']'] from rfl]
    simp
  have eB : pyStrip ['[', ']']
      ('[' :: ((e :: (d1t ++ ',' :: d2 ++ ',' :: d3 ++ ',' :: d4i)) ++ [f]) ++ [']']) =
      (e :: (d1t ++ ',' :: d2 ++ ',' :: d3 ++ ',' :: d4i)) ++ [f] := by
    exact pyStrip_bounds e f (d1t ++ ',' :: d2 ++ ',' :: d3 ++ ',' :: d4i)
      (intChar_not_bracket e (hc1 e (List.mem_cons_self e d1t)))
      (intChar_not_bracket f (hc4 f hfmem))
  have eC : splitOnChar ','
      ((e :: (d1t ++ ',' :: d2 ++ ',' :: d3 ++ ',' :: d4i)) ++ [f]) =
      [e :: d1t, d2, d3, d4i ++ [f]] := by
    rw [show (e :: (d1t ++ ',' :: d2 ++ ',' :: d3 ++ ',' :: d4i)) ++ [f]
        = (e :: d1t) ++ ',' :: (d2 ++ ',' :: (d3 ++ ',' :: (d4i ++ [f]))) by simp]
    rw [splitOnChar_append ',' (e :: d1t) (d2 ++ ',' :: (d3 ++ ',' :: (d4i ++ [f])))
      (fun c hc => intChar_ne_comma c (hc1 c hc))]
    rw [splitOnChar_append ',' d2 (d3 ++ ',' :: (d4i ++ [f]))
      (fun c hc => intChar_ne_comma c (hc2 c hc))]
    rw [splitOnChar_append ',' d3 (d4i ++ [f])
      (fun c hc => intChar_ne_comma c (hc3 c hc))]
    rw [splitOnChar_no_sep ',' (d4i ++ [f])
      (fun c hc => intChar_ne_comma c (hc4 c hc))]
  rw [boundsCenter, pyParseBounds, eA, eB, eC]
  simp only [h1, h2, h3, h4, Option.map_some']

theorem C1_witness : boundsCenter (("[10,20][30,40]").data) = some (20, 30) := by
  have h := C1_center_floor_division ("10").data ("20").data ("30").data ("40").data
    10 20 30 40 rfl rfl rfl rfl
  rw [show mkBounds ("10").data ("20").data ("30").data ("40").data
      = ("[10,20][30,40]").data by decide] at h
  rw [show ((10 : Int) + 30).fdiv 2 = 20 by decide,
    show ((20 : Int) + 40).fdiv 2 = 30 by decide] at h
  exact h

theorem C10_witness :
    Adb.is_enabled devSub ("com.absent.app") [] =
      ([Event.cmd ["adb", "shell", "pm", "list", "packages", "-e"]],
        Except.ok (pyIn ("com.absent.app")
          (devSub.out [] ["adb", "shell", "pm", "list", "packages", "-e"]))) :=
  C10_substring_membership.2.1 devSub "com.absent.app" [] rfl

end Samsung
